import Mathlib

/-!
Verification of the pyguard linter/fixer against its specification.

The Python sources under `src/pyguard/` are shallowly embedded below.
Host-language (CPython) primitives that the code calls — `str.splitlines`,
`ast.parse`, `tokenize` — are embedded as follows: `str.splitlines` is
modelled in full (it is pure string processing, and several claims hinge
on its exact boundary set); the parser and tokenizer are treated as the
environment, so functions receiving their results take those results as
arguments, and facts about what CPython actually produces on a concrete
source are recorded in doc comments where a claim depends on them.

All line/column numbers are modelled as `Int` (Python integers).
-/

namespace PyGuard

/-- Severity enum from `constants.py` (`error | warn | off`). -/
inductive Severity where
  | error
  | warn
  | off
deriving DecidableEq, Repr

/-- `diagnostics.SourceLocation`: 1-based position, optional end position. -/
structure SourceLocation where
  line : Int
  column : Int
  endLine : Option Int := none
  endColumn : Option Int := none
deriving DecidableEq, Repr

/-- `diagnostics.Diagnostic`. The `file` is modelled as its path string. -/
structure Diagnostic where
  file : String
  location : SourceLocation
  code : String
  message : String
  severity : Severity
  sourceLine : Option String := none
deriving DecidableEq, Repr

/-! ## Python `str.splitlines`

`parser.py` builds `source_lines` with `source.splitlines()` and the
fixers index lines with `source.splitlines(keepends=True)`.  CPython
splits on the full set of line boundaries: LF, CR, CRLF, VT (0x0b),
FF (0x0c), FS (0x1c), GS (0x1d), RS (0x1e), NEL (0x85), LS (0x2028),
PS (0x2029); a trailing segment without a terminator is kept, and a
trailing terminator does NOT produce a final empty element. -/

/-- The line-boundary characters of Python `str.splitlines`. -/
def isLineBoundary (c : Char) : Bool :=
  c = '\n' || c = '\r' || c = '\x0b' || c = '\x0c' ||
  c = '\x1c' || c = '\x1d' || c = '\x1e' || c = '\x85' ||
  c = '\u2028' || c = '\u2029'

/-- Helper for `pySplitLines`: `acc` holds the current line reversed;
`prevCR` records that the previous character was a CR whose line has
already been emitted, so that an immediately following LF is swallowed
(CRLF is a single boundary). -/
def pySplitLinesAux (acc : List Char) (prevCR : Bool) :
    List Char → List (List Char)
  | [] => if acc.isEmpty then [] else [acc.reverse]
  | c :: rest =>
    if prevCR = true ∧ c = '\n' then pySplitLinesAux [] false rest
    else if c = '\r' then acc.reverse :: pySplitLinesAux [] true rest
    else if isLineBoundary c then acc.reverse :: pySplitLinesAux [] false rest
    else pySplitLinesAux (c :: acc) false rest

/-- Python `source.splitlines()` (terminators stripped). -/
def pySplitLines (s : String) : List String :=
  (pySplitLinesAux [] false s.data).map String.mk

/-- Helper for `pySplitLinesKeepends`: here `prevCR` records a pending
CR that has not been emitted yet, since with `keepends=True` the line
must include the full CRLF pair when an LF follows. -/
def pySplitKeepAux (acc : List Char) (prevCR : Bool) :
    List Char → List (List Char)
  | [] =>
    if prevCR = true then [('\r' :: acc).reverse]
    else if acc.isEmpty then [] else [acc.reverse]
  | c :: rest =>
    if prevCR = true then
      if c = '\n' then
        ('\n' :: '\r' :: acc).reverse :: pySplitKeepAux [] false rest
      else if c = '\r' then
        ('\r' :: acc).reverse :: pySplitKeepAux [] true rest
      else if isLineBoundary c then
        ('\r' :: acc).reverse :: [c] :: pySplitKeepAux [] false rest
      else ('\r' :: acc).reverse :: pySplitKeepAux [c] false rest
    else
      if c = '\r' then pySplitKeepAux acc true rest
      else if isLineBoundary c then
        (c :: acc).reverse :: pySplitKeepAux [] false rest
      else pySplitKeepAux (c :: acc) false rest

/-- Python `source.splitlines(keepends=True)` (terminators kept). -/
def pySplitLinesKeepends (s : String) : List String :=
  (pySplitKeepAux [] false s.data).map String.mk

/-- Joining a list of lines with a single `\x5cn` between elements,
as in the spec sentence "the concatenation of `source_lines` joined
with a newline". -/
def joinNl : List (List Char) → List Char
  | [] => []
  | [l] => l
  | l :: rest => l ++ '\n' :: joinNl rest

/-- A string all of whose line boundaries are plain LF. -/
def onlyLfBreaks (cs : List Char) : Prop :=
  ∀ c ∈ cs, isLineBoundary c → c = '\n'

instance (cs : List Char) : Decidable (onlyLfBreaks cs) := by
  unfold onlyLfBreaks; infer_instance

/-- Claim C5's property at one source string `s`, stated exactly as the
spec sentence reads: if `s` has no trailing newline the re-joined
`source_lines` equal `s`; if `s` ends with a newline, the split carries
a trailing empty string (so that re-joining restores the final newline
and again yields `s`). -/
def c5ClaimAt (s : String) : Prop :=
  (s.data.getLast? = some '\n' →
    (pySplitLinesAux [] false s.data).getLast? = some [] ∧
      joinNl (pySplitLinesAux [] false s.data) = s.data) ∧
  (s.data.getLast? ≠ some '\n' →
    joinNl (pySplitLinesAux [] false s.data) = s.data)

instance (s : String) : Decidable (c5ClaimAt s) := by
  unfold c5ClaimAt; infer_instance

/-- Unfolding lemma for `pySplitLinesAux` at a non-CR head. -/
theorem pySplitLinesAux_cons_ne_cr (acc : List Char) (c : Char)
    (rest : List Char) (hc : c ≠ '\r') :
    pySplitLinesAux acc false (c :: rest) =
      if isLineBoundary c then acc.reverse :: pySplitLinesAux [] false rest
      else pySplitLinesAux (c :: acc) false rest := by
  simp only [pySplitLinesAux]
  rw [if_neg (by simp), if_neg hc]

/-- A nonempty input always splits into a nonempty list of lines. -/
theorem pySplitLinesAux_ne_nil (cs : List Char) :
    ∀ acc, cs ≠ [] → pySplitLinesAux acc false cs ≠ [] := by
  induction cs with
  | nil => intro acc h; exact absurd rfl h
  | cons c rest ih =>
    intro acc _
    simp only [pySplitLinesAux]
    rw [if_neg (by simp)]
    by_cases hcr : c = '\r'
    · simp [hcr]
    · rw [if_neg hcr]
      by_cases hb : isLineBoundary c
      · simp [hb]
      · rw [if_neg hb]
        rcases rest with _ | ⟨c', rest'⟩
        · simp [pySplitLinesAux]
        · exact ih (c :: acc) (by simp)

/-- `joinNl` of a cons with a nonempty tail. -/
theorem joinNl_cons_of_ne_nil (l : List Char) (L : List (List Char))
    (h : L ≠ []) : joinNl (l :: L) = l ++ '\n' :: joinNl L := by
  rcases L with _ | ⟨x, L'⟩
  · exact absurd rfl h
  · rfl

/-- Main lemma for C5 (amended): on a source all of whose line
boundaries are plain LF, re-joining `splitlines` with LF gives back the
source, except that a trailing LF is lost (Python `splitlines` emits no
trailing empty element). -/
theorem joinNl_pySplitLinesAux (cs : List Char) :
    ∀ acc, onlyLfBreaks cs →
      joinNl (pySplitLinesAux acc false cs) =
        acc.reverse ++
          (if cs.getLast? = some '\n' then cs.dropLast else cs) := by
  induction cs with
  | nil =>
    intro acc _
    rcases acc with _ | ⟨a, acc'⟩
    · simp [pySplitLinesAux, joinNl]
    · simp [pySplitLinesAux, joinNl]
  | cons c rest ih =>
    intro acc h
    have hrest : onlyLfBreaks rest := by
      intro x hx hbx; exact h x (List.mem_cons_of_mem _ hx) hbx
    have hc : c ≠ '\r' := by
      intro hcr
      have := h c (List.mem_cons_self c rest) (by rw [hcr]; decide)
      rw [hcr] at this; exact absurd this (by decide)
    rw [pySplitLinesAux_cons_ne_cr _ _ _ hc]
    by_cases hb : isLineBoundary c
    · have hcn : c = '\n' := h c (List.mem_cons_self c rest) hb
      subst hcn
      rw [if_pos hb]
      rcases rest with _ | ⟨c', rest'⟩
      · simp [pySplitLinesAux, joinNl]
      · rw [joinNl_cons_of_ne_nil _ _
          (pySplitLinesAux_ne_nil _ [] (by simp)),
          ih [] hrest]
        by_cases hl : (c' :: rest').getLast? = some '\n' <;>
          simp [hl, List.getLast?_cons_cons, List.dropLast_cons_of_ne_nil]
    · have hcn : c ≠ '\n' := by
        intro hcc; rw [hcc] at hb; exact absurd (by decide) hb
      rw [if_neg hb]
      rcases rest with _ | ⟨c', rest'⟩
      · simp [pySplitLinesAux, joinNl, hcn]
      · rw [ih (c :: acc) hrest]
        by_cases hl : (c' :: rest').getLast? = some '\n' <;>
          simp [hl, List.getLast?_cons_cons, List.dropLast_cons_of_ne_nil]

/-- Claim C5 (amended): `parse_file` builds `source_lines` with Python
`source.splitlines()`.  For a source whose line boundaries are all plain
LF, joining `source_lines` with a newline yields the source itself when
the source does not end with a newline, and the source with its final
newline removed when it does: `splitlines` never emits a trailing empty
element, so the trailing newline is not restored by the join (contrary
to the claim as stated; see the counterexample). -/
theorem c5_amended (s : String) (h : onlyLfBreaks s.data) :
    joinNl ((pySplitLines s).map String.data) =
      (if s.data.getLast? = some '\n' then s.data.dropLast else s.data) := by
  have hmap : (pySplitLines s).map String.data = pySplitLinesAux [] false s.data := by
    rw [pySplitLines, List.map_map]
    have hid : (String.data ∘ String.mk) = id := funext fun l => rfl
    rw [hid, List.map_id]
  rw [hmap, joinNl_pySplitLinesAux s.data [] h]
  simp

/-- Witness for C5 (amended) at the concrete source `"x\ny\n"`. -/
theorem c5_amended_witness :
    onlyLfBreaks ("x\ny\n" : String).data ∧
      joinNl ((pySplitLines "x\ny\n").map String.data) =
        (if ("x\ny\n" : String).data.getLast? = some '\n' then
          ("x\ny\n" : String).data.dropLast
        else ("x\ny\n" : String).data) :=
  ⟨by decide, c5_amended "x\ny\n" (by decide)⟩

/-- Counterexample for C5 as stated: at `source = "a\n"` Python
`splitlines` gives `["a"]` — there is no trailing empty element and the
LF-join `"a"` does not equal the source. -/
theorem c5_counterexample : ¬ c5ClaimAt "a\n" := by decide

/-! ## AST model

The parts of the CPython `ast` node zoo that the claims touch.  Nodes
carry 1-based `lineno` / `end_lineno` / `col_offset` exactly as the
parser supplies them.  Statement kinds that none of the embedded code
inspects specially (`If`, `While`, `Try`, `Import`, `Expr`, …) are
modelled by `Stmt.other`, which keeps their nested statements (all suite
fields, concatenated in field order) as `children` — that is all
`ast.walk` and the visitors use of them. -/

/-- Shape of a decorator expression, as far as the code inspects it:
`ast.Name` (its `id`), `ast.Attribute` (its `attr`), anything else. -/
inductive DecForm where
  | nameD (id : String)
  | attrD (attrName : String)
  | otherD
deriving DecidableEq, Repr

/-- A decorator expression with its position. -/
structure Decorator where
  form : DecForm
  lineno : Int
deriving DecidableEq, Repr

/-- An assignment target: `ast.Name` (its `id`) or anything else
(tuple, attribute, subscript, starred…). -/
inductive Target where
  | nameT (id : String)
  | otherT
deriving DecidableEq, Repr

/-- `ast.arguments`, reduced to what the embedded rules read: the
parameter names of each section and whether `*args` is present. -/
structure Arguments where
  posonlyargs : List String := []
  args : List String := []
  vararg : Option String := none
  kwonlyargs : List String := []
deriving DecidableEq, Repr

/-- A Python statement. -/
inductive Stmt where
  | functionDef (name : String) (isAsync : Bool)
      (decorators : List Decorator) (args : Arguments) (body : List Stmt)
      (lineno colOffset : Int) (endLineno : Option Int)
  | classDef (name : String) (decorators : List Decorator)
      (body : List Stmt) (lineno : Int) (endLineno : Option Int)
  | assign (targets : List Target) (lineno : Int) (endLineno : Option Int)
  | annAssign (target : Target) (lineno : Int) (endLineno : Option Int)
  | augAssign (target : Target) (lineno : Int) (endLineno : Option Int)
  | other (children : List Stmt) (lineno : Int) (endLineno : Option Int)

/-- `ast.Module`: its top-level statement list. -/
abbrev Module := List Stmt

/-- `node.lineno` of a statement. -/
def Stmt.lineno : Stmt → Int
  | .functionDef _ _ _ _ _ l _ _ => l
  | .classDef _ _ _ l _ => l
  | .assign _ l _ => l
  | .annAssign _ l _ => l
  | .augAssign _ l _ => l
  | .other _ l _ => l

/-- `node.end_lineno` of a statement (optional, as in the `ast` API). -/
def Stmt.endLinenoOpt : Stmt → Option Int
  | .functionDef _ _ _ _ _ _ _ e => e
  | .classDef _ _ _ _ e => e
  | .assign _ _ e => e
  | .annAssign _ _ e => e
  | .augAssign _ _ e => e
  | .other _ _ e => e

/-- The child statements of a statement (its suites, in field order);
what a traversal of statement nodes sees. -/
def Stmt.children : Stmt → List Stmt
  | .functionDef _ _ _ _ body _ _ _ => body
  | .classDef _ _ body _ _ => body
  | .assign _ _ _ => []
  | .annAssign _ _ _ => []
  | .augAssign _ _ _ => []
  | .other cs _ _ => cs

/-- Python `x or y` on an optional integer (`None` and `0` are falsy),
as in `node.end_lineno or node.lineno`. -/
def pyOrInt (x : Option Int) (dflt : Int) : Int :=
  match x with
  | some v => if v = 0 then dflt else v
  | none => dflt

/-! ## Parser (`parser.py`)

`parse_file` first reads the file (host I/O), then splits the source
with `splitlines`, then calls `ast.parse` (host parser).  The host steps
are inputs of the model: `ReadOutcome` is the outcome of
`Path.read_text`, and the parse-failure constructor of `parse_file`
takes the `SyntaxError`'s `lineno` / `offset` / `msg` as the host parser
reported them. -/

/-- `parser.SyntaxErrorInfo`. -/
structure SyntaxErrorInfo where
  line : Int
  column : Int
  message : String
  sourceLine : Option String
deriving DecidableEq, Repr

/-- `parser.ParseResult`. -/
structure ParseResult where
  file : String
  tree : Option Module
  source : String
  sourceLines : List String
  syntaxError : Option SyntaxErrorInfo

/-- Outcome of `file.read_text(encoding="utf-8")`. -/
inductive ReadOutcome where
  | osError (msg : String)
  | decodeError (msg : String)
  | ok (source : String)

/-- `_get_source_line`-style indexing used inside `parse_file`
(`source_lines[line - 1]` guarded by `1 <= line <= len(source_lines)`). -/
def getSourceLineAt (line : Int) (sourceLines : List String) : Option String :=
  if 1 ≤ line ∧ line ≤ sourceLines.length then
    sourceLines.get? (line - 1).toNat
  else none

/-- `parser.parse_file`, lines 32–59: the two read-failure branches.
Both return a `ParseResult` (no exception escapes) with no tree, empty
source and an error pinned at line 1, column 1. -/
def parse_file_read_failure (file : String) (outcome : ReadOutcome) :
    Option ParseResult :=
  match outcome with
  | .osError msg =>
    some { file := file, tree := none, source := "", sourceLines := [],
           syntaxError := some { line := 1, column := 1,
                                 message := "Cannot read file: " ++ msg,
                                 sourceLine := none } }
  | .decodeError msg =>
    some { file := file, tree := none, source := "", sourceLines := [],
           syntaxError := some { line := 1, column := 1,
                                 message := "Encoding error: " ++ msg,
                                 sourceLine := none } }
  | .ok _ => none

/-- `parser.parse_file`, lines 61–84: the source was read and decoded,
`source_lines = source.splitlines()`, and `ast.parse` raised a
`SyntaxError` whose `lineno` / `offset` / `msg` are given.  The line
defaults to 1 when the parser reported none; the column is clamped with
`max(1, offset or 1)`; `source_line` is looked up only when the line is
in range. -/
def parse_file_syntax_error (file source : String)
    (lineno offset : Option Int) (msg : Option String) : ParseResult :=
  let sourceLines := pySplitLines source
  let line := lineno.getD 1
  let column := max 1 (pyOrInt offset 1)
  { file := file, tree := none, source := source,
    sourceLines := sourceLines,
    syntaxError := some { line := line, column := column,
                          message := msg.getD "Syntax error",
                          sourceLine := getSourceLineAt line sourceLines } }

/-- `parser.parse_file`, lines 86–92: the success branch. -/
def parse_file_ok (file source : String) (tree : Module) : ParseResult :=
  { file := file, tree := some tree, source := source,
    sourceLines := pySplitLines source, syntaxError := none }

/-- `SYNTAX_ERROR_CODE` from `constants.py`. -/
def SYNTAX_ERROR_CODE : String := "SYN001"

/-- `runner._syntax_error_to_diagnostic`; the `ValueError` raised when
there is no syntax error is modelled by `none`. -/
def syntax_error_to_diagnostic (pr : ParseResult) : Option Diagnostic :=
  match pr.syntaxError with
  | none => none
  | some err =>
    some { file := pr.file,
           location := { line := err.line, column := err.column },
           code := SYNTAX_ERROR_CODE,
           message := err.message,
           severity := .error,
           sourceLine := err.sourceLine }

/-- Claim C9: on an unreadable file (`OSError` from `read_text`),
`parse_file` returns — it does not raise — a `ParseResult` with no
tree, empty source, empty `source_lines`, and a syntax error at line 1,
column 1 whose message carries the OS error; the runner turns it into an
error-severity SYN001 diagnostic at (1,1). -/
theorem c9_unreadable_file_total (file msg : String) :
    parse_file_read_failure file (.osError msg) =
      some { file := file, tree := none, source := "", sourceLines := [],
             syntaxError := some { line := 1, column := 1,
                                   message := "Cannot read file: " ++ msg,
                                   sourceLine := none } } ∧
    ∀ pr, parse_file_read_failure file (.osError msg) = some pr →
      syntax_error_to_diagnostic pr =
        some { file := file,
               location := { line := 1, column := 1 },
               code := "SYN001",
               message := "Cannot read file: " ++ msg,
               severity := .error,
               sourceLine := none } := by
  refine ⟨rfl, ?_⟩
  intro pr hpr
  have : pr = { file := file, tree := none, source := "",
                sourceLines := [],
                syntaxError := some { line := 1, column := 1,
                                      message := "Cannot read file: " ++ msg,
                                      sourceLine := none } } := by
    simpa [parse_file_read_failure] using hpr.symm
  rw [this]
  rfl

/-- Witness for C9 at a concrete file and message. -/
theorem c9_unreadable_file_total_witness :
    ∀ pr, parse_file_read_failure "m.py" (.osError "no access") = some pr →
      syntax_error_to_diagnostic pr =
        some { file := "m.py",
               location := { line := 1, column := 1 },
               code := "SYN001",
               message := "Cannot read file: no access",
               severity := .error,
               sourceLine := none } :=
  (c9_unreadable_file_total "m.py" "no access").2

/-- The claim C6 property at one parse failure: the reported position
satisfies `column ≥ 1` and `1 ≤ line ≤ len(source_lines)`. -/
def c6ClaimAt (pr : ParseResult) : Prop :=
  ∀ err, pr.syntaxError = some err →
    1 ≤ err.column ∧ 1 ≤ err.line ∧ err.line ≤ pr.sourceLines.length

/-- The parse result of the one-line source `"def broken(\n"` when the
host parser reports its unclosed-paren EOF error at `lineno = 2` — one
past the final line, as CPython reported for this input before the
PEG-parser error rework, and exactly what the repository's own
`test_parser.py` expects for it (`expected_line = 2`, tolerating 1, on
this one-`splitlines`-line file). -/
def c6BrokenPR : ParseResult :=
  parse_file_syntax_error "bad.py" "def broken(\n" (some 2) none
    (some "unexpected EOF while parsing")

/-- Counterexample for C6 as stated: `parse_file` performs no upper
clamp on the line (parser.py line 66 only defaults a missing `lineno`
to 1), so on `"def broken(\n"` with the parser reporting `lineno = 2`
the `SyntaxErrorInfo` has `line = 2 > 1 = len(source_lines)`,
violating the claimed bound `line ≤ len(source_lines)`. -/
theorem c6_counterexample : ¬ c6ClaimAt c6BrokenPR := by
  intro h
  have hc := h { line := 2, column := 1,
                 message := "unexpected EOF while parsing",
                 sourceLine := none } (by decide)
  have hlen : c6BrokenPR.sourceLines.length = 1 := by decide
  rcases hc with ⟨_, _, hle⟩
  rw [hlen] at hle
  exact absurd hle (by decide)

/-- Claim C6 (amended): on a parse failure the reported column is
clamped to `≥ 1` (`max(1, offset or 1)`, live for CPython's
`offset = 0` reports), while the line is the parser's own `lineno`
passed through with NO upper clamp (defaulted to 1 only when the
parser reports none); when the reported line falls outside
`[1, len(source_lines)]`, the `SyntaxErrorInfo` carries no
`source_line` — that range check (parser.py lines 69–71) guards only
the `source_line` lookup, not the line itself. -/
theorem c6_amended (file source : String) (lineno offset : Option Int)
    (msg : Option String) :
    ∀ err,
      (parse_file_syntax_error file source lineno offset msg).syntaxError =
        some err →
      1 ≤ err.column ∧
      (∀ n, lineno = some n → err.line = n) ∧
      (lineno = none → err.line = 1) ∧
      ((pySplitLines source).length < err.line → err.sourceLine = none) := by
  intro err herr
  have herr' : err = { line := lineno.getD 1,
                       column := max 1 (pyOrInt offset 1),
                       message := msg.getD "Syntax error",
                       sourceLine :=
                         getSourceLineAt (lineno.getD 1)
                           (pySplitLines source) } := by
    simpa [parse_file_syntax_error] using herr.symm
  subst herr'
  refine ⟨le_max_left _ _, ?_, ?_, ?_⟩
  · intro n hn; rw [hn]; rfl
  · intro hn; rw [hn]; rfl
  · intro hgt
    simp only [getSourceLineAt]
    rw [if_neg]
    intro hin
    exact absurd hin.2 (not_le.mpr hgt)

/-- Witness for C6 (amended) at the counterexample's parse result: the
column is 1, the line is the parser's reported 2 (not clamped to the
single source line), and the out-of-range line yields no
`source_line`. -/
theorem c6_amended_witness :
    1 ≤ ({ line := 2, column := 1,
           message := "unexpected EOF while parsing",
           sourceLine := none } : SyntaxErrorInfo).column ∧
      (∀ n, (some (2 : Int) : Option Int) = some n →
        ({ line := 2, column := 1,
           message := "unexpected EOF while parsing",
           sourceLine := none } : SyntaxErrorInfo).line = n) ∧
      ((some (2 : Int) : Option Int) = none →
        ({ line := 2, column := 1,
           message := "unexpected EOF while parsing",
           sourceLine := none } : SyntaxErrorInfo).line = 1) ∧
      ((pySplitLines "def broken(\n").length <
          ({ line := 2, column := 1,
             message := "unexpected EOF while parsing",
             sourceLine := none } : SyntaxErrorInfo).line →
        ({ line := 2, column := 1,
           message := "unexpected EOF while parsing",
           sourceLine := none } : SyntaxErrorInfo).sourceLine = none) :=
  c6_amended "bad.py" "def broken(\n" (some 2) none
    (some "unexpected EOF while parsing")
    { line := 2, column := 1,
      message := "unexpected EOF while parsing", sourceLine := none }
    (by decide)

/-- Python `str.startswith`, on the character lists (kernel-reducible,
unlike `String.startsWith`). -/
def pyStartsWith (s pre : String) : Bool :=
  pre.data.isPrefixOf s.data

/-- Python `str.endswith`. -/
def pyEndsWith (s suf : String) : Bool :=
  suf.data.isSuffixOf s.data

/-! ## Configuration (`types.py`, `constants.py`) -/

/-- `types.KW001Options` with its defaults. -/
structure KW001Options where
  minParams : Int := 2
  exemptDunder : Bool := true
  exemptPrivate : Bool := true
  exemptOverrides : Bool := true
deriving DecidableEq, Repr

/-- `types.IgnoreGovernance` with its defaults.  The `disallow`
frozenset is modelled as a list used only for membership. -/
structure IgnoreGovernance where
  requireReason : Bool := true
  disallow : List String := []
  maxPerFile : Option Int := none
deriving DecidableEq, Repr

/-- `constants.DEFAULT_SEVERITIES`. -/
def DEFAULT_SEVERITIES : List (String × Severity) :=
  [("TYP001", .error), ("TYP002", .error), ("TYP003", .warn),
   ("TYP010", .error), ("KW001", .warn), ("RET001", .warn),
   ("IMP001", .error), ("EXP001", .off), ("EXP002", .off)]

/-- `types.RuleConfig`, restricted to the fields the embedded code
reads (`severities` as an association list, and the KW001 options). -/
structure RuleConfig where
  severities : List (String × Severity) := DEFAULT_SEVERITIES
  kw001 : KW001Options := {}
deriving DecidableEq, Repr

/-- `types.PyGuardConfig`, restricted to the fields the embedded code
reads. -/
structure PyGuardConfig where
  rules : RuleConfig := {}
  ignores : IgnoreGovernance := {}
deriving DecidableEq, Repr

/-- `PyGuardConfig.get_severity`: `severities.get(rule_code, OFF)`. -/
def get_severity (cfg : PyGuardConfig) (ruleCode : String) : Severity :=
  (cfg.rules.severities.lookup ruleCode).getD .off

/-- `PyGuardConfig.is_rule_enabled`. -/
def is_rule_enabled (cfg : PyGuardConfig) (ruleCode : String) : Bool :=
  get_severity cfg ruleCode ≠ .off

/-! ## Rule registry (`rules/registry.py`)

Rule instances are stateless objects whose only observable datum is
their `code`, so the registry is modelled over rule codes. -/

/-- `registry._all_rules`: the seven registered rule instances, by
code and in registration order — note that `EXP001Rule` and
`EXP002Rule` are not registered. -/
def all_rules : List String :=
  ["TYP001", "TYP002", "TYP003", "TYP010", "KW001", "IMP001", "RET001"]

/-- `registry.get_enabled_rules`. -/
def get_enabled_rules (cfg : PyGuardConfig) : List String :=
  all_rules.filter (fun code => is_rule_enabled cfg code)

/-! ## EXP002 rule (`rules/exp002.py`) -/

/-- `exp002._has_all_definition`: a plain, annotated or augmented
top-level assignment whose (a) target is the name `__all__`. -/
def has_all_definition (tree : Module) : Bool :=
  tree.any fun node =>
    match node with
    | .assign targets _ _ => targets.any (fun t => t = .nameT "__all__")
    | .annAssign t _ _ => t = .nameT "__all__"
    | .augAssign t _ _ => t = .nameT "__all__"
    | _ => false

/-- `exp002._has_public_symbols`: a top-level function, async function
or class whose name does not start with `_`, or a plain/annotated
top-level assignment to a name not starting with `_` (augmented
assignments are not considered here). -/
def has_public_symbols (tree : Module) : Bool :=
  tree.any fun node =>
    match node with
    | .functionDef name _ _ _ _ _ _ _ => !pyStartsWith name "_"
    | .classDef name _ _ _ _ => !pyStartsWith name "_"
    | .assign targets _ _ =>
      targets.any fun t =>
        match t with
        | .nameT id => !pyStartsWith id "_"
        | .otherT => false
    | .annAssign (.nameT id) _ _ => !pyStartsWith id "_"
    | _ => false

/-- `EXP002Rule.check`. -/
def exp002_check (tree : Option Module) (file : String)
    (sourceLines : List String) (cfg : PyGuardConfig) : List Diagnostic :=
  match tree with
  | none => []
  | some t =>
    let severity := get_severity cfg "EXP002"
    if has_all_definition t then []
    else if !has_public_symbols t then []
    else
      [{ file := file, location := { line := 1, column := 1 },
         code := "EXP002",
         message := "Module should define \x27__all__\x27 to explicitly " ++
           "declare public API",
         severity := severity,
         sourceLine := sourceLines.head? }]

/-- A configuration that turns EXP002 on (severity `error`). -/
def cfgWithEXP002 : PyGuardConfig :=
  { rules := { severities := ("EXP002", .error) :: DEFAULT_SEVERITIES } }

/-- Counterexample for C2 as stated: in `cfgWithEXP002` the EXP002
severity is `error` (not `off`), yet `get_enabled_rules` does not
return any rule with code EXP002 — `registry._all_rules` never
registers `EXP002Rule`, so linting can never produce an EXP002
diagnostic, whatever the module contains. -/
theorem c2_counterexample :
    get_severity cfgWithEXP002 "EXP002" ≠ Severity.off ∧
      "EXP002" ∉ get_enabled_rules cfgWithEXP002 := by decide

/-- Claim C2 (amended): the registry never returns an EXP002 rule
(EXP002 is absent from `_all_rules`), for any configuration whatsoever;
the `EXP002Rule.check` method itself, when invoked on a parsed module
that has a top-level public symbol and no top-level `__all__`
assignment, yields exactly one EXP002 diagnostic at line 1, column 1
carrying the configured severity. -/
theorem c2_amended :
    (∀ cfg : PyGuardConfig, "EXP002" ∉ get_enabled_rules cfg) ∧
    (∀ (tree : Module) (file : String) (sourceLines : List String)
        (cfg : PyGuardConfig),
      get_severity cfg "EXP002" ≠ .off →
      has_all_definition tree = false →
      has_public_symbols tree = true →
      exp002_check (some tree) file sourceLines cfg =
        [{ file := file, location := { line := 1, column := 1 },
           code := "EXP002",
           message := "Module should define \x27__all__\x27 to explicitly " ++
             "declare public API",
           severity := get_severity cfg "EXP002",
           sourceLine := sourceLines.head? }]) := by
  constructor
  · intro cfg hmem
    have h := List.mem_of_mem_filter hmem
    simp [all_rules] at h
  · intro tree file sourceLines cfg _ hall hpub
    simp [exp002_check, hall, hpub]

/-- Witness for C2 (amended) at a concrete module with one public
top-level assignment `x = 1` and no `__all__`, and EXP002 configured at
`error` severity. -/
theorem c2_amended_witness :
    "EXP002" ∉ get_enabled_rules cfgWithEXP002 ∧
      exp002_check (some [.assign [.nameT "x"] 1 (some 1)]) "m.py"
          ["x = 1"] cfgWithEXP002 =
        [{ file := "m.py", location := { line := 1, column := 1 },
           code := "EXP002",
           message := "Module should define \x27__all__\x27 to explicitly " ++
             "declare public API",
           severity := .error,
           sourceLine := some "x = 1" }] :=
  ⟨c2_amended.1 cfgWithEXP002,
   c2_amended.2 [.assign [.nameT "x"] 1 (some 1)] "m.py" ["x = 1"]
     cfgWithEXP002 (by decide) (by decide) (by decide)⟩

/-! ## KW001 rule (`rules/kw001.py`) -/

/-- `kw001._is_dunder`: `len(name) > 4 and name.startswith("__") and
name.endswith("__")`. -/
def is_dunder (name : String) : Bool :=
  decide (4 < name.data.length) && pyStartsWith name "__" &&
    pyEndsWith name "__"

/-- `kw001._is_private`. -/
def is_private (name : String) : Bool :=
  pyStartsWith name "_" && !is_dunder name

/-- `kw001._has_override_decorator`: a decorator that is the bare name
`override` or an attribute access ending in `.override`. -/
def has_override_decorator (decorators : List Decorator) : Bool :=
  decorators.any fun d =>
    match d.form with
    | .nameD id => id = "override"
    | .attrD attrName => attrName = "override"
    | .otherD => false

/-- The function-header data `_Visitor._check_function` reads. -/
structure FuncNode where
  name : String
  decorators : List Decorator
  args : Arguments
  lineno : Int
  colOffset : Int
deriving DecidableEq, Repr

/-- Whether the first positional-or-keyword parameter is `self`/`cls`
(`positional_args[0].arg in ("self", "cls")`). -/
def headIsSelfCls (positional : List String) : Bool :=
  match positional with
  | p :: _ => p = "self" || p = "cls"
  | [] => false

/-- `kw001._Visitor._check_function`: `none` when no diagnostic is
emitted, `some d` for the emitted diagnostic.  `classDepth` is the
visitor's `_class_depth` at this node. -/
def kw001_check_function (opts : KW001Options) (sev : Severity)
    (file : String) (sourceLines : List String) (classDepth : Nat)
    (f : FuncNode) : Option Diagnostic :=
  if opts.exemptDunder && is_dunder f.name then none
  else if opts.exemptPrivate && is_private f.name then none
  else if opts.exemptOverrides && has_override_decorator f.decorators then
    none
  else if !f.args.kwonlyargs.isEmpty || f.args.vararg.isSome then none
  else
    let isMethod : Bool := 0 < classDepth
    let positional := f.args.args
    let selfClsOffset : Int :=
      if isMethod && headIsSelfCls positional then 1 else 0
    if (positional.length : Int) - selfClsOffset < opts.minParams then none
    else
      some { file := file,
             location := { line := f.lineno, column := f.colOffset + 1 },
             code := "KW001",
             message := (if isMethod then "Method" else "Function") ++
               " \x27" ++ f.name ++
               "\x27 should use keyword-only parameters (add * separator)",
             severity := sev,
             sourceLine := getSourceLineAt f.lineno sourceLines }

mutual

/-- `kw001._Visitor`, one statement: `visit_FunctionDef` /
`visit_AsyncFunctionDef` check the node then `generic_visit` its body
at the same class depth; `visit_ClassDef` visits its body one class
level deeper; every other statement is traversed generically. -/
def kw001_visit_stmt (opts : KW001Options) (sev : Severity)
    (file : String) (sourceLines : List String) (classDepth : Nat) :
    Stmt → List Diagnostic
  | .functionDef name _ decorators args body lineno colOffset _ =>
    (kw001_check_function opts sev file sourceLines classDepth
      { name := name, decorators := decorators, args := args,
        lineno := lineno, colOffset := colOffset }).toList ++
      kw001_visit_list opts sev file sourceLines classDepth body
  | .classDef _ _ body _ _ =>
    kw001_visit_list opts sev file sourceLines (classDepth + 1) body
  | .other children _ _ =>
    kw001_visit_list opts sev file sourceLines classDepth children
  | .assign _ _ _ => []
  | .annAssign _ _ _ => []
  | .augAssign _ _ _ => []

/-- `kw001._Visitor` over a statement list, in order. -/
def kw001_visit_list (opts : KW001Options) (sev : Severity)
    (file : String) (sourceLines : List String) (classDepth : Nat) :
    List Stmt → List Diagnostic
  | [] => []
  | s :: rest =>
    kw001_visit_stmt opts sev file sourceLines classDepth s ++
      kw001_visit_list opts sev file sourceLines classDepth rest

end

/-- `KW001Rule.check`. -/
def kw001_rule_check (tree : Option Module) (file : String)
    (sourceLines : List String) (cfg : PyGuardConfig) : List Diagnostic :=
  match tree with
  | none => []
  | some t =>
    kw001_visit_list cfg.rules.kw001 (get_severity cfg "KW001") file
      sourceLines 0 t

mutual

/-- All function/async-function headers in one statement, paired with
the class depth at which the visitor meets them, in visitor order. -/
def functions_of_stmt (classDepth : Nat) : Stmt → List (FuncNode × Nat)
  | .functionDef name _ decorators args body lineno colOffset _ =>
    ({ name := name, decorators := decorators, args := args,
       lineno := lineno, colOffset := colOffset }, classDepth) ::
      functions_of_list classDepth body
  | .classDef _ _ body _ _ => functions_of_list (classDepth + 1) body
  | .other children _ _ => functions_of_list classDepth children
  | .assign _ _ _ => []
  | .annAssign _ _ _ => []
  | .augAssign _ _ _ => []

/-- All function headers of a statement list, in visitor order. -/
def functions_of_list (classDepth : Nat) :
    List Stmt → List (FuncNode × Nat)
  | [] => []
  | s :: rest =>
    functions_of_stmt classDepth s ++ functions_of_list classDepth rest

end

mutual

/-- The KW001 visitor emits, for each statement, exactly the
diagnostics that `_check_function` yields on the functions it
contains, one per function, in visitor order. -/
theorem kw001_visit_stmt_eq (opts : KW001Options) (sev : Severity)
    (file : String) (sourceLines : List String) (classDepth : Nat)
    (s : Stmt) :
    kw001_visit_stmt opts sev file sourceLines classDepth s =
      (functions_of_stmt classDepth s).filterMap
        (fun p => kw001_check_function opts sev file sourceLines p.2 p.1) := by
  cases s with
  | functionDef name isAsync decorators args body lineno colOffset e =>
    rw [kw001_visit_stmt, functions_of_stmt, List.filterMap_cons,
      kw001_visit_list_eq opts sev file sourceLines classDepth body]
    cases kw001_check_function opts sev file sourceLines classDepth
        { name := name, decorators := decorators, args := args,
          lineno := lineno, colOffset := colOffset } with
    | none => rfl
    | some d => rfl
  | classDef name decorators body lineno e =>
    rw [kw001_visit_stmt, functions_of_stmt,
      kw001_visit_list_eq opts sev file sourceLines (classDepth + 1) body]
  | other children lineno e =>
    rw [kw001_visit_stmt, functions_of_stmt,
      kw001_visit_list_eq opts sev file sourceLines classDepth children]
  | assign targets lineno e => rfl
  | annAssign t lineno e => rfl
  | augAssign t lineno e => rfl

/-- List version of `kw001_visit_stmt_eq`. -/
theorem kw001_visit_list_eq (opts : KW001Options) (sev : Severity)
    (file : String) (sourceLines : List String) (classDepth : Nat)
    (l : List Stmt) :
    kw001_visit_list opts sev file sourceLines classDepth l =
      (functions_of_list classDepth l).filterMap
        (fun p => kw001_check_function opts sev file sourceLines p.2 p.1) := by
  cases l with
  | nil => rfl
  | cons s rest =>
    rw [kw001_visit_list, functions_of_list, List.filterMap_append,
      kw001_visit_stmt_eq opts sev file sourceLines classDepth s,
      kw001_visit_list_eq opts sev file sourceLines classDepth rest]

end

/-- The exemption conditions of KW001 (shared by the rule as
implemented and by claim C8's reading of it). -/
def kw001_exempt (opts : KW001Options) (f : FuncNode) : Prop :=
  (opts.exemptDunder = true ∧ is_dunder f.name = true) ∨
  (opts.exemptPrivate = true ∧ is_private f.name = true) ∨
  (opts.exemptOverrides = true ∧ has_override_decorator f.decorators = true)

instance (opts : KW001Options) (f : FuncNode) :
    Decidable (kw001_exempt opts f) := by
  unfold kw001_exempt; infer_instance

/-- The positional count the CODE uses: only positional-or-keyword
parameters (`node.args.args`), minus a leading `self`/`cls` in methods.
Positional-only parameters are not counted. -/
def kw001_code_count (classDepth : Nat) (args : Arguments) : Int :=
  (args.args.length : Int) -
    (if 0 < classDepth ∧ headIsSelfCls args.args = true then 1 else 0)

/-- The positional count claim C8 asserts: positional-only plus
positional-or-keyword parameters, minus a leading `self`/`cls` in
methods. -/
def kw001_claim_count (classDepth : Nat) (args : Arguments) : Int :=
  ((args.posonlyargs ++ args.args).length : Int) -
    (if 0 < classDepth ∧
        headIsSelfCls (args.posonlyargs ++ args.args) = true
     then 1 else 0)

/-- When the implemented rule flags a function (amended claim C8's
characterisation). -/
def kw001_flag_spec (opts : KW001Options) (classDepth : Nat)
    (f : FuncNode) : Prop :=
  ¬ kw001_exempt opts f ∧ f.args.kwonlyargs = [] ∧ f.args.vararg = none ∧
    opts.minParams ≤ kw001_code_count classDepth f.args

instance (opts : KW001Options) (classDepth : Nat) (f : FuncNode) :
    Decidable (kw001_flag_spec opts classDepth f) := by
  unfold kw001_flag_spec; infer_instance

/-- When claim C8 as stated says the function is flagged. -/
def kw001_claim_flagged (opts : KW001Options) (classDepth : Nat)
    (f : FuncNode) : Prop :=
  ¬ kw001_exempt opts f ∧ f.args.kwonlyargs = [] ∧ f.args.vararg = none ∧
    opts.minParams ≤ kw001_claim_count classDepth f.args

instance (opts : KW001Options) (classDepth : Nat) (f : FuncNode) :
    Decidable (kw001_claim_flagged opts classDepth f) := by
  unfold kw001_claim_flagged; infer_instance

/-- The module `def f(a, b, /): pass` — a top-level function with two
positional-only parameters and nothing else. -/
def c8Tree : Module :=
  [.functionDef "f" false []
    { posonlyargs := ["a", "b"], args := [], vararg := none,
      kwonlyargs := [] }
    [.other [] 1 (some 1)] 1 0 (some 1)]

/-- The function-header data of the single function in `c8Tree`. -/
def c8Func : FuncNode :=
  { name := "f", decorators := [],
    args := { posonlyargs := ["a", "b"], args := [], vararg := none,
              kwonlyargs := [] },
    lineno := 1, colOffset := 0 }

/-- Counterexample for C8 as stated: on `def f(a, b, /): pass` with the
default configuration the claim counts two positional parameters (both
positional-only), which meets `min_params = 2` with no keyword-only
parameters and no `*args`, so the claim demands exactly one diagnostic;
but the rule counts only `node.args.args` (empty here) and emits
nothing. -/
theorem c8_counterexample :
    kw001_claim_flagged ({} : KW001Options) 0 c8Func ∧
      kw001_rule_check (some c8Tree) "m.py" ["def f(a, b, /): pass"]
        ({} : PyGuardConfig) = [] := by
  constructor
  · decide
  · decide

/-- Claim C8 (amended): rule KW001 emits exactly one diagnostic per
function it meets — one entry of `_check_function`'s output per
function header, in visitor order — and `_check_function` emits one iff
the function is non-exempt, has no keyword-only parameters and no
`*args`, and its positional-or-keyword parameter count
(`node.args.args` only, excluding a leading `self`/`cls` in methods;
positional-only parameters are NOT counted) is at least `min_params`. -/
theorem c8_amended (cfg : PyGuardConfig) (file : String)
    (sourceLines : List String) (tree : Module) :
    kw001_rule_check (some tree) file sourceLines cfg =
      (functions_of_list 0 tree).filterMap
        (fun p => kw001_check_function cfg.rules.kw001
          (get_severity cfg "KW001") file sourceLines p.2 p.1) ∧
    (∀ (classDepth : Nat) (f : FuncNode),
      (kw001_check_function cfg.rules.kw001 (get_severity cfg "KW001")
          file sourceLines classDepth f).isSome = true ↔
        kw001_flag_spec cfg.rules.kw001 classDepth f) := by
  constructor
  · exact kw001_visit_list_eq _ _ _ _ 0 tree
  · intro classDepth f
    unfold kw001_check_function kw001_flag_spec kw001_exempt
      kw001_code_count
    by_cases hm : 0 < classDepth <;>
      by_cases hsc : headIsSelfCls f.args.args = true <;>
        split_ifs <;> simp_all <;>
          first
          | omega
          | (intro hk hv; simp_all)

/-- Witness for C8 (amended) at a concrete method
`compute(self, a, b, op)` inside a class, with default options. -/
theorem c8_amended_witness :
    (kw001_check_function ({} : KW001Options) .warn "m.py" [] 1
        { name := "compute", decorators := [],
          args := { args := ["self", "a", "b", "op"] },
          lineno := 2, colOffset := 4 }).isSome = true ↔
      kw001_flag_spec ({} : KW001Options) 1
        { name := "compute", decorators := [],
          args := { args := ["self", "a", "b", "op"] },
          lineno := 2, colOffset := 4 } :=
  (c8_amended { rules := { kw001 := {} } } "m.py" [] []).2 1
    { name := "compute", decorators := [],
      args := { args := ["self", "a", "b", "op"] },
      lineno := 2, colOffset := 4 }

/-! ## Suppression engine (`ignores.py`)

The pragma detector is regex-based
(`#\s*pyguard:\s*ignore\[([^\]]+)\](?:\s+because:\s*(.+))?$` and the
`ignore-file` variant, applied with `re.search`).  It is embedded as an
explicit leftmost-match scanner: at each start position the pattern is
deterministic — `[^\]]+` cannot cross the closing bracket, and the
optional `because` group either matches to end-of-line or the whole
start fails (the `$` anchor).  `\s` and `str.strip` are modelled on the
ASCII whitespace set (pragma lines in practice contain no exotic
Unicode spaces). -/

/-- ASCII whitespace, as matched by `\s` and stripped by `str.strip`. -/
def isPySpace (c : Char) : Bool :=
  c = ' ' || c = '\t' || c = '\n' || c = '\r' || c = '\x0b' || c = '\x0c'

/-- Python `str.strip()` on a character list. -/
def pyStripChars (cs : List Char) : List Char :=
  ((cs.dropWhile isPySpace).reverse.dropWhile isPySpace).reverse

/-- Python `str.strip()`. -/
def pyStrip (s : String) : String :=
  String.mk (pyStripChars s.data)

/-- Python `str.upper()` (ASCII; rule codes are ASCII). -/
def pyUpper (s : String) : String :=
  String.mk (s.data.map Char.toUpper)

/-- Python `str.split(",")`. -/
def splitOnComma : List Char → List (List Char)
  | [] => [[]]
  | c :: rest =>
    match splitOnComma rest with
    | [] => [[]]
    | g :: gs => if c = ',' then [] :: g :: gs else (c :: g) :: gs

/-- Lexicographic (code-point) comparison of strings, i.e. Python
`str.__lt__`. -/
def strLtChars : List Char → List Char → Bool
  | [], [] => false
  | [], _ :: _ => true
  | _ :: _, [] => false
  | a :: as_, b :: bs =>
    if a = b then strLtChars as_ bs else decide (a < b)

/-- Insert into an ascending, duplicate-free list of strings. -/
def sortedInsert (x : String) : List String → List String
  | [] => [x]
  | y :: rest =>
    if x = y then y :: rest
    else if strLtChars x.data y.data then x :: y :: rest
    else y :: sortedInsert x rest

/-- Canonical (sorted ascending, duplicate-free) form of a set of
strings: the model of a `frozenset[str]` whose only observations are
membership and `sorted(...)` iteration. -/
def sortDedup (l : List String) : List String :=
  l.foldl (fun acc x => sortedInsert x acc) []

/-- `ignores._parse_codes`: split on commas, strip, drop empties,
uppercase; the resulting frozenset in canonical sorted form. -/
def parse_codes (raw : List Char) : List String :=
  sortDedup (((splitOnComma raw).map pyStripChars).filter
    (fun g => !g.isEmpty) |>.map (fun g => pyUpper (String.mk g)))

/-- `ignores._clean_reason`. -/
def clean_reason (raw : Option (List Char)) : Option String :=
  match raw with
  | none => none
  | some cs =>
    let stripped := pyStripChars cs
    if stripped.isEmpty then none else some (String.mk stripped)

/-- `ignores.IgnoreDirective` (codes in canonical sorted form). -/
structure IgnoreDirective where
  line : Int
  codes : List String
  reason : Option String
  isFileLevel : Bool
  isInline : Bool
deriving DecidableEq, Repr

/-- Consume an exact literal prefix. -/
def dropLit : List Char → List Char → Option (List Char)
  | [], cs => some cs
  | _ :: _, [] => none
  | l :: ls, c :: cs => if c = l then dropLit ls cs else none

/-- Try to match one ignore pragma pattern starting exactly here:
`#`, `\s*`, `pyguard:`, `\s*`, then the given tag (`ignore[` or
`ignore-file[`), then `[^\]]+` up to `]`, then either end-of-line or
`\s+because:\s*(.+)` to end-of-line.  Returns the raw codes text and
the raw reason group. -/
def matchPragmaAt (tag : List Char) (cs : List Char) :
    Option (List Char × Option (List Char)) :=
  match cs with
  | '#' :: rest =>
    match dropLit "pyguard:".data (rest.dropWhile isPySpace) with
    | none => none
    | some rest2 =>
      match dropLit tag (rest2.dropWhile isPySpace) with
      | none => none
      | some rest4 =>
        let codesPart := rest4.takeWhile (fun c => c ≠ ']')
        match codesPart, rest4.dropWhile (fun c => c ≠ ']') with
        | [], _ => none
        | _, ']' :: tail =>
          if tail.isEmpty then some (codesPart, none)
          else if (tail.takeWhile isPySpace).isEmpty then none
          else
            match dropLit "because:".data (tail.dropWhile isPySpace) with
            | none => none
            | some tail3 =>
              if tail3.isEmpty then none else some (codesPart, some tail3)
        | _, _ => none
  | _ => none

/-- `re.search`: the leftmost start position where the pattern
matches; returns (start index, raw codes, raw reason). -/
def searchPragma (tag : List Char) (idx : Nat) :
    List Char → Option (Nat × List Char × Option (List Char))
  | [] => none
  | c :: rest =>
    match matchPragmaAt tag (c :: rest) with
    | some (codes, reason) => some (idx, codes, reason)
    | none => searchPragma tag (idx + 1) rest

/-- `ignores.parse_ignore_directives` over one line: the
`ignore-file` pattern is tried first; otherwise the plain `ignore`
pattern, with `is_inline` true iff non-whitespace text precedes the
match. -/
def parse_directive_of_line (lineNum : Int) (lineText : String) :
    Option IgnoreDirective :=
  match searchPragma "ignore-file[".data 0 lineText.data with
  | some (_, codesRaw, reasonRaw) =>
    some { line := lineNum, codes := parse_codes codesRaw,
           reason := clean_reason reasonRaw,
           isFileLevel := true, isInline := false }
  | none =>
    match searchPragma "ignore[".data 0 lineText.data with
    | some (start, codesRaw, reasonRaw) =>
      let before := pyStripChars (lineText.data.take start)
      some { line := lineNum, codes := parse_codes codesRaw,
             reason := clean_reason reasonRaw,
             isFileLevel := false, isInline := !before.isEmpty }
    | none => none

/-- Helper: fold `parse_directive_of_line` over the numbered lines. -/
def parse_directives_go (idx : Nat) : List String → List IgnoreDirective
  | [] => []
  | lineText :: rest =>
    match parse_directive_of_line (Int.ofNat (idx + 1)) lineText with
    | some d => d :: parse_directives_go (idx + 1) rest
    | none => parse_directives_go (idx + 1) rest

/-- `ignores.parse_ignore_directives`. -/
def parse_ignore_directives (sourceLines : List String) :
    List IgnoreDirective :=
  parse_directives_go 0 sourceLines

/-- `constants.IGN001_CODE` … `IGN003_CODE`. -/
def IGN001_CODE : String := "IGN001"

/-- `constants.IGN002_CODE`. -/
def IGN002_CODE : String := "IGN002"

/-- `constants.IGN003_CODE`. -/
def IGN003_CODE : String := "IGN003"

/-- `ignores._check_governance`.  `sorted(d.codes)` is the canonical
order in which the codes are already stored. -/
def check_governance (directives : List IgnoreDirective)
    (governance : IgnoreGovernance) (file : String)
    (sourceLines : List String) : List Diagnostic :=
  (if governance.requireReason then
    directives.filterMap fun d =>
      if d.reason = none then
        some { file := file, location := { line := d.line, column := 1 },
               code := IGN001_CODE,
               message := "Ignore pragma requires a reason " ++
                 "(use \x27because: ...\x27)",
               severity := .error,
               sourceLine := getSourceLineAt d.line sourceLines }
      else none
  else []) ++
  (directives.flatMap fun d =>
    d.codes.filterMap fun code =>
      if code ∈ governance.disallow then
        some { file := file, location := { line := d.line, column := 1 },
               code := IGN002_CODE,
               message := "Rule \x27" ++ code ++ "\x27 cannot be ignored " ++
                 "(disallowed by configuration)",
               severity := .error,
               sourceLine := getSourceLineAt d.line sourceLines }
      else none) ++
  (match governance.maxPerFile with
   | some m =>
     if m < (directives.length : Int) then
       [{ file := file, location := { line := 1, column := 1 },
          code := IGN003_CODE,
          message := "File has " ++ toString directives.length ++
            " ignore directives, maximum allowed is " ++ toString m,
          severity := .error,
          sourceLine := getSourceLineAt 1 sourceLines }]
     else []
   | none => [])

/-- The effective start line of a statement: the earliest decorator
line for decorated function/class definitions, else `lineno`
(`ignores._collect_statement_ranges`, lines 150–155). -/
def Stmt.effectiveStart : Stmt → Int
  | .functionDef _ _ decorators _ _ lineno _ _ =>
    (match decorators with
     | [] => lineno
     | d :: ds => ds.foldl (fun m dd => min m dd.lineno) d.lineno)
  | .classDef _ decorators _ lineno _ =>
    (match decorators with
     | [] => lineno
     | d :: ds => ds.foldl (fun m dd => min m dd.lineno) d.lineno)
  | s => s.lineno

/-- `node.end_lineno or node.lineno`. -/
def Stmt.pyEnd (s : Stmt) : Int :=
  pyOrInt s.endLinenoOpt s.lineno

mutual

/-- Number of statement nodes in one statement (itself included). -/
def countStmt : Stmt → Nat
  | .functionDef _ _ _ _ body _ _ _ => 1 + countStmtList body
  | .classDef _ _ body _ _ => 1 + countStmtList body
  | .other cs _ _ => 1 + countStmtList cs
  | .assign _ _ _ => 1
  | .annAssign _ _ _ => 1
  | .augAssign _ _ _ => 1

/-- Number of statement nodes in a statement list. -/
def countStmtList : List Stmt → Nat
  | [] => 0
  | s :: rest => countStmt s + countStmtList rest

end

/-- Breadth-first traversal with explicit fuel: each step pops one
node and enqueues its children, as `ast.walk` does. -/
def walkBFS : Nat → List Stmt → List Stmt
  | 0, _ => []
  | _ + 1, [] => []
  | fuel + 1, s :: rest => s :: walkBFS fuel (rest ++ s.children)

/-- The statement nodes seen by `ast.walk(tree)` (breadth-first,
non-statement nodes skipped).  Every node enters the queue exactly
once, so `countStmtList tree` steps exhaust it. -/
def ast_walk_stmts (tree : Module) : List Stmt :=
  walkBFS (countStmtList tree) tree

/-- Python-dict insertion with overwrite on an existing key. -/
def dictInsert (m : List (Int × Int)) (k v : Int) : List (Int × Int) :=
  if m.any (fun p => p.1 = k) then
    m.map (fun p => if p.1 = k then (k, v) else p)
  else m ++ [(k, v)]

/-- Python `dict.get(k)`. -/
def dictGet? (m : List (Int × Int)) (k : Int) : Option Int :=
  (m.find? (fun p => p.1 = k)).map (fun p => p.2)

/-- `ignores._collect_statement_ranges`: over the walk, map each
statement's effective start line to its end line — a statement later
in the walk overwrites an earlier one with the same start line. -/
def collect_statement_ranges (tree : Module) : List (Int × Int) :=
  (ast_walk_stmts tree).foldl
    (fun m node => dictInsert m node.effectiveStart node.pyEnd) []

/-- `ignores._resolve_block_ranges`. -/
def resolve_block_ranges (directives : List IgnoreDirective)
    (tree : Option Module) : List (Int × Int × List String) :=
  let blockDirectives :=
    directives.filter (fun d => !d.isFileLevel && !d.isInline)
  if blockDirectives.isEmpty then []
  else
    match tree with
    | none => []
    | some t =>
      let stmtRanges := collect_statement_ranges t
      blockDirectives.flatMap fun d =>
        match dictGet? stmtRanges (d.line + 1) with
        | some endLine => [(d.line + 1, endLine, d.codes)]
        | none => []

/-- The filtering loop of `ignores.apply_ignores` (lines 109–128):
disallowed codes are always kept; otherwise file-level, then inline,
then block suppression can drop the diagnostic. -/
def keep_filter (disallow fileCodes : List String)
    (directives : List IgnoreDirective)
    (blockRanges : List (Int × Int × List String)) :
    List Diagnostic → List Diagnostic
  | [] => []
  | d :: rest =>
    if d.code ∈ disallow then
      d :: keep_filter disallow fileCodes directives blockRanges rest
    else if d.code ∈ fileCodes then
      keep_filter disallow fileCodes directives blockRanges rest
    else if d.code ∈ (directives.filter (fun dd =>
        !dd.isFileLevel && dd.isInline && dd.line = d.location.line)
          |>.flatMap (fun dd => dd.codes)) then
      keep_filter disallow fileCodes directives blockRanges rest
    else if blockRanges.any (fun r =>
        r.1 ≤ d.location.line ∧ d.location.line ≤ r.2.1 ∧
          d.code ∈ r.2.2) then
      keep_filter disallow fileCodes directives blockRanges rest
    else d :: keep_filter disallow fileCodes directives blockRanges rest

/-- `ignores.apply_ignores`.  The inline-suppression dict keyed by
line is modelled by filtering the directives at the diagnostic's line
(membership-equivalent); the file-level frozenset union by list
concatenation (likewise membership-equivalent). -/
def apply_ignores (diagnostics : List Diagnostic) (pr : ParseResult)
    (governance : IgnoreGovernance) : List Diagnostic :=
  let directives := parse_ignore_directives pr.sourceLines
  if directives.isEmpty then diagnostics
  else
    let violations :=
      check_governance directives governance pr.file pr.sourceLines
    let fileCodes :=
      (directives.filter (fun d => d.isFileLevel)).flatMap
        (fun d => d.codes)
    let blockRanges := resolve_block_ranges directives pr.tree
    violations ++
      keep_filter governance.disallow fileCodes directives blockRanges
        diagnostics

/-- A diagnostic whose code is in the disallow set survives the
filtering loop. -/
theorem keep_filter_mem_of_disallow (disallow fileCodes : List String)
    (directives : List IgnoreDirective)
    (blockRanges : List (Int × Int × List String))
    (diags : List Diagnostic) (d : Diagnostic) (hd : d ∈ diags)
    (hcode : d.code ∈ disallow) :
    d ∈ keep_filter disallow fileCodes directives blockRanges diags := by
  induction diags with
  | nil => cases hd
  | cons a rest ih =>
    rw [keep_filter]
    rcases List.mem_cons.mp hd with h | h
    · subst h
      rw [if_pos hcode]
      exact List.mem_cons_self _ _
    · split_ifs <;>
        first
        | exact List.mem_cons_of_mem _ (ih h)
        | exact ih h

/-- The filtering loop returns a subsequence of its input (no
diagnostic is altered, duplicated or reordered). -/
theorem keep_filter_sublist (disallow fileCodes : List String)
    (directives : List IgnoreDirective)
    (blockRanges : List (Int × Int × List String))
    (diags : List Diagnostic) :
    List.Sublist
      (keep_filter disallow fileCodes directives blockRanges diags)
      diags := by
  induction diags with
  | nil => exact List.Sublist.refl _
  | cons a rest ih =>
    rw [keep_filter]
    split_ifs <;> first | exact ih.cons₂ a | exact ih.cons a

/-- Every governance violation emitted by `_check_governance` has one
of the codes IGN001/IGN002/IGN003 and error severity. -/
theorem check_governance_code_severity (directives : List IgnoreDirective)
    (gov : IgnoreGovernance) (file : String) (sl : List String) :
    ∀ v ∈ check_governance directives gov file sl,
      (v.code = "IGN001" ∨ v.code = "IGN002" ∨ v.code = "IGN003") ∧
        v.severity = .error := by
  intro v hv
  simp only [check_governance, List.mem_append] at hv
  rcases hv with (hv | hv) | hv
  · split_ifs at hv with hr
    · simp only [List.mem_filterMap] at hv
      obtain ⟨dd, _, heq⟩ := hv
      split_ifs at heq
      · cases heq
        exact ⟨Or.inl rfl, rfl⟩
    · cases hv
  · simp only [List.mem_flatMap, List.mem_filterMap] at hv
    obtain ⟨dd, _, code, _, heq⟩ := hv
    split_ifs at heq
    · cases heq
      exact ⟨Or.inr (Or.inl rfl), rfl⟩
  · rcases hmp : gov.maxPerFile with _ | m <;> rw [hmp] at hv <;>
      dsimp only at hv
    · cases hv
    · split_ifs at hv
      · simp only [List.mem_singleton] at hv
        subst hv
        exact ⟨Or.inr (Or.inr rfl), rfl⟩
      · cases hv

/-- Claim C4: `apply_ignores` never drops a diagnostic whose code is
in the governance `disallow` set, whatever pragmas the file contains
(file-level and inline pragmas naming the code included). -/
theorem c4_disallowed_never_dropped (diags : List Diagnostic)
    (pr : ParseResult) (gov : IgnoreGovernance) (d : Diagnostic)
    (hd : d ∈ diags) (hcode : d.code ∈ gov.disallow) :
    d ∈ apply_ignores diags pr gov := by
  simp only [apply_ignores]
  by_cases hdir : (parse_ignore_directives pr.sourceLines).isEmpty
  · rw [if_pos hdir]; exact hd
  · rw [if_neg hdir]
    exact List.mem_append_right _
      (keep_filter_mem_of_disallow _ _ _ _ _ _ hd hcode)

/-- Witness for C4: a file-level pragma and an inline pragma both name
TYP001 on the diagnostic's own line, TYP001 is disallowed, and the
diagnostic survives. -/
theorem c4_disallowed_never_dropped_witness :
    ({ file := "m.py", location := { line := 2, column := 1 },
       code := "TYP001", message := "missing", severity := .error } :
        Diagnostic) ∈
      apply_ignores
        [{ file := "m.py", location := { line := 2, column := 1 },
           code := "TYP001", message := "missing", severity := .error }]
        { file := "m.py", tree := some [], source := "",
          sourceLines :=
            ["# pyguard: ignore-file[TYP001] because: x",
             "y = 1  # pyguard: ignore[TYP001] because: y"],
          syntaxError := none }
        { requireReason := true, disallow := ["TYP001"],
          maxPerFile := none } :=
  c4_disallowed_never_dropped _ _ _ _ (by decide) (by decide)

/-- Claim C10: the output of `apply_ignores` is a block of governance
violations (each with code IGN001/IGN002/IGN003 and error severity)
followed by a subsequence of the input diagnostics in their original
relative order; and a file with no pragma directives passes the input
through unchanged, with no governance diagnostics, whatever the
governance configuration. -/
theorem c10_output_shape (diags : List Diagnostic) (pr : ParseResult)
    (gov : IgnoreGovernance) :
    (∃ gviol kept,
      apply_ignores diags pr gov = gviol ++ kept ∧
      List.Sublist kept diags ∧
      ∀ v ∈ gviol,
        (v.code = "IGN001" ∨ v.code = "IGN002" ∨ v.code = "IGN003") ∧
          v.severity = .error) ∧
    (parse_ignore_directives pr.sourceLines = [] →
      apply_ignores diags pr gov = diags) := by
  constructor
  · by_cases hdir : (parse_ignore_directives pr.sourceLines).isEmpty
    · refine ⟨[], diags, ?_, List.Sublist.refl _,
        fun v hv => (List.not_mem_nil v hv).elim⟩
      simp only [apply_ignores]
      rw [if_pos hdir]
      exact (List.nil_append _).symm
    · refine ⟨check_governance (parse_ignore_directives pr.sourceLines)
          gov pr.file pr.sourceLines,
        keep_filter gov.disallow
          (((parse_ignore_directives pr.sourceLines).filter
            (fun d => d.isFileLevel)).flatMap (fun d => d.codes))
          (parse_ignore_directives pr.sourceLines)
          (resolve_block_ranges (parse_ignore_directives pr.sourceLines)
            pr.tree) diags,
        ?_, keep_filter_sublist _ _ _ _ _,
        check_governance_code_severity _ _ _ _⟩
      simp only [apply_ignores]
      rw [if_neg hdir]
  · intro hempty
    simp only [apply_ignores, hempty]
    rfl

/-- Claim C7's association rule, as stated: some statement's effective
start line (its own line, or the earliest decorator line) equals `P+1`,
and `L` lies within `[P+1, that statement's end line]`. -/
def c7_block_covers_claim (tree : Module) (P L : Int) : Prop :=
  ∃ s ∈ ast_walk_stmts tree,
    s.effectiveStart = P + 1 ∧ P + 1 ≤ L ∧ L ≤ s.pyEnd

instance (tree : Module) (P L : Int) :
    Decidable (c7_block_covers_claim tree P L) := by
  unfold c7_block_covers_claim; infer_instance

/-- The source lines of the C7 counterexample file:
a standalone pragma, then `while c: a` / `else: b`. -/
def c7Lines : List String :=
  ["# pyguard: ignore[KW001] because: r", "while c: a", "else: b"]

/-- The AST of `while c: a` / `else: b` at lines 2–3 (as CPython
reports it): the `While` spans lines 2–3; its body expression statement
sits at line 2 and its orelse expression statement at line 3.
`ast.walk` (breadth-first) yields While, body, orelse — so in
`_collect_statement_ranges` the body statement overwrites the While's
entry for start line 2 with end line 2. -/
def c7Tree : Module :=
  [.other [.other [] 2 (some 2), .other [] 3 (some 3)] 2 (some 3)]

/-- A diagnostic with code KW001 on line 3 of the C7 file. -/
def c7Diag : Diagnostic :=
  { file := "m.py", location := { line := 3, column := 1 },
    code := "KW001", message := "kw", severity := .warn }

/-- The C7 counterexample's parse result. -/
def c7PR : ParseResult :=
  { file := "m.py", tree := some c7Tree, source := "",
    sourceLines := c7Lines, syntaxError := none }

/-- Counterexample for C7 as stated: the standalone pragma on line 1
names KW001; the `While` statement's effective start line is 2 = P+1
and the diagnostic's line 3 lies within [2, 3] — by the claim, the
KW001 diagnostic on line 3 must be dropped.  But the range map keeps
only the LAST walk-order statement per start line — the body statement
`a`, whose end is 2 — so the block range is [2, 2] and the diagnostic
survives `apply_ignores`. -/
theorem c7_counterexample :
    c7_block_covers_claim c7Tree 1 3 ∧
      apply_ignores [c7Diag] c7PR {} = [c7Diag] := by
  constructor
  · decide
  · decide

/-- Claim C7 (amended): for a file whose only pragma is one standalone
(non-inline, non-file-level) directive on line `P` listing `d.code`,
with `d.code` neither disallowed nor a governance code, the diagnostic
`d` is kept by `apply_ignores` iff its line is NOT covered by the
statement-range map entry at `P+1` — the map built by walking all
statements breadth-first, where a later statement with the same
effective start line overwrites an earlier one. -/
theorem c7_amended (P : Int) (codes : List String) (r : Option String)
    (pr : ParseResult) (tree : Module) (gov : IgnoreGovernance)
    (d : Diagnostic)
    (hdir : parse_ignore_directives pr.sourceLines =
      [{ line := P, codes := codes, reason := r,
         isFileLevel := false, isInline := false }])
    (htree : pr.tree = some tree)
    (hcode : d.code ∈ codes)
    (hdis : d.code ∉ gov.disallow)
    (hne1 : d.code ≠ "IGN001") (hne2 : d.code ≠ "IGN002")
    (hne3 : d.code ≠ "IGN003") :
    d ∈ apply_ignores [d] pr gov ↔
      ¬ ∃ e, dictGet? (collect_statement_ranges tree) (P + 1) = some e ∧
        P + 1 ≤ d.location.line ∧ d.location.line ≤ e := by
  have hnotviol : d ∉ check_governance
      [{ line := P, codes := codes, reason := r,
         isFileLevel := false, isInline := false }] gov pr.file
      pr.sourceLines := by
    intro hv
    rcases check_governance_code_severity _ _ _ _ d hv with ⟨hc, _⟩
    rcases hc with h | h | h
    · exact hne1 h
    · exact hne2 h
    · exact hne3 h
  simp only [apply_ignores, hdir, htree]
  rw [if_neg (by simp)]
  rw [List.mem_append]
  simp only [hnotviol, false_or]
  simp only [resolve_block_ranges, List.filter_cons, List.filter_nil]
  cases hget : dictGet? (collect_statement_ranges tree) (P + 1) with
  | none =>
    simp only [hget, keep_filter]
    rw [if_neg hdis]
    simp [hget]
  | some e =>
    simp only [hget, keep_filter]
    rw [if_neg hdis]
    by_cases hcover : P + 1 ≤ d.location.line ∧ d.location.line ≤ e
    · simp [hget, hcover, hcode]
    · simp [hget, hcode]

/-- Witness for C7 (amended) at the counterexample file: the map entry
at line 2 ends at line 2, the diagnostic is on line 3, so it is kept. -/
theorem c7_amended_witness :
    c7Diag ∈ apply_ignores [c7Diag] c7PR {} ↔
      ¬ ∃ e, dictGet? (collect_statement_ranges c7Tree) (1 + 1) = some e ∧
        1 + 1 ≤ c7Diag.location.line ∧ c7Diag.location.line ≤ e :=
  c7_amended 1 ["KW001"] (some "r") c7PR c7Tree {} c7Diag (by decide)
    rfl (by decide) (by decide) (by decide) (by decide) (by decide)

/-- Witness for C10 at a concrete pragma-free file: the input list
passes through unchanged. -/
theorem c10_output_shape_witness :
    apply_ignores
      [{ file := "m.py", location := { line := 1, column := 1 },
         code := "TYP001", message := "m", severity := .warn }]
      { file := "m.py", tree := some [], source := "",
        sourceLines := ["x = 1", "y = 2"], syntaxError := none }
      { requireReason := true, disallow := ["TYP001"],
        maxPerFile := some 0 } =
    [{ file := "m.py", location := { line := 1, column := 1 },
       code := "TYP001", message := "m", severity := .warn }] :=
  (c10_output_shape _ _ _).2 (by decide)

/-! ## Fixer line splicing (`fixers/typ002.py`, `fixers/typ003.py`)

Both fixers locate insertion points with the CPython tokenizer — whose
rows and columns count physical lines separated by LF only — and then
splice the text into `source.splitlines(keepends=True)`, whose
boundaries additionally include FF, VT, CR, … (see `pySplitLinesKeepends`).
The splice loops (typ002.py lines 41–46, typ003.py lines 61–65) are
embedded below; the AST/tokenizer analyses that produce the insertion
lists are host results, recorded per concrete input in the theorems'
doc comments. -/

/-- Python `sorted(insertions, reverse=True)` on `(row, col)` pairs:
insertion into a descending lexicographic list. -/
def insertPairDesc (x : Int × Int) :
    List (Int × Int) → List (Int × Int)
  | [] => [x]
  | y :: rest =>
    if x.1 > y.1 ∨ (x.1 = y.1 ∧ x.2 ≥ y.2) then x :: y :: rest
    else y :: insertPairDesc x rest

/-- Descending sort of `(row, col)` insertion points. -/
def sortPairsDesc (l : List (Int × Int)) : List (Int × Int) :=
  l.foldr insertPairDesc []

/-- Splice `text` into line `row` (0-based, against the keepends
split) at code-point column `col`:
`line[:col] + text + line[col:]`. -/
def spliceAt (ls : List String) (row col : Int) (text : String) :
    List String :=
  match ls.get? row.toNat with
  | some line =>
    ls.set row.toNat
      (String.mk (line.data.take col.toNat ++ text.data ++
        line.data.drop col.toNat))
  | none => ls

/-- The output-construction step of `fix_missing_return_none`
(typ002.py lines 41–46): split keepends, insert `" -> None"` at each
`(row, col)` in descending order, join — and return the result with NO
re-parse validation (this fixer, alone among the five, never checks
its candidate output). -/
def typ002_apply_insertions (source : String)
    (insertions : List (Int × Int)) : String :=
  let lines := pySplitLinesKeepends source
  String.join ((sortPairsDesc insertions).foldl
    (fun ls p => spliceAt ls p.1 p.2 " -> None") lines)

/-- The output-construction step of `fix_missing_variable_annotations`
(typ003.py lines 61–65): split keepends, insert `": <type>"` at each
insertion point in descending order, join; the result then goes
through `_util.apply_insertions`, which re-parses it and, when the
re-parse succeeds, returns it as is. -/
def typ003_apply_insertions (source : String)
    (insertions : List (Int × Int × String)) : String :=
  let lines := pySplitLinesKeepends source
  String.join ((sortPairsDesc (insertions.map (fun t => (t.1, t.2.1)))).foldl
    (fun ls p =>
      match insertions.find? (fun t => t.1 = p.1 ∧ t.2.1 = p.2) with
      | some t => spliceAt ls t.1 t.2.1 (": " ++ t.2.2)
      | none => ls) lines)

/-- Claim C1, evaluated at its failing input
`"# c \x0c\ndef f():\n    pass\n"` (a form feed inside the comment).
CPython facts, verified against 3.11: the source parses; `f` is
fixable (no return annotation, no valued `return`, no `yield`, not a
dunder); the tokenizer reports the header colon at row 2, column 7, so
`_find_def_colon` yields the insertion point `(1, 7)`.  But
`splitlines(keepends=True)` splits the comment at the form feed, so
index 1 is the lone `"\n"` line and the splice lands there: the
candidate is `"# c \x0c\n -> Nonedef f():\n    pass\n"`, which CPython
rejects (`SyntaxError` at line 2) — and `fix_missing_return_none`
returns it anyway, having skipped the re-parse that
`_util.apply_insertions` would have performed.  The fixer's output
neither parses nor equals its input. -/
theorem c1_typ002_failing_input_eval :
    typ002_apply_insertions "# c \x0c\ndef f():\n    pass\n" [(1, 7)] =
      "# c \x0c\n -> Nonedef f():\n    pass\n" ∧
    ("# c \x0c\n -> Nonedef f():\n    pass\n" : String) ≠
      "# c \x0c\ndef f():\n    pass\n" := by
  constructor
  · decide
  · decide

/-- Claim C3, evaluated at its failing input
`"# a \x0c b\nx = 1\n"` (a form feed inside the comment).  CPython
facts, verified against 3.11: the source parses; the sole fixable
assignment is `x = 1` (integer literal), whose target token ends at
row 2, column 1, so the fixer inserts `": int"` at `(1, 1)` — but the
keepends split has an extra boundary at the form feed, so the splice
lands inside the comment line.  The candidate still parses (it only
grew the comment), so `apply_insertions` returns it: one pass gives
`"# a \x0c : intb\nx = 1\n"`.  On that output the same analysis
repeats verbatim — `x = 1` is still unannotated with the same token
position — and a second pass gives `"# a \x0c : int: intb\nx = 1\n"`,
which again parses.  Hence
`fix_missing_variable_annotations` applied twice differs from once:
idempotency fails. -/
theorem c3_typ003_not_idempotent_eval :
    typ003_apply_insertions "# a \x0c b\nx = 1\n" [(1, 1, "int")] =
      "# a \x0c : intb\nx = 1\n" ∧
    typ003_apply_insertions "# a \x0c : intb\nx = 1\n" [(1, 1, "int")] =
      "# a \x0c : int: intb\nx = 1\n" ∧
    ("# a \x0c : int: intb\nx = 1\n" : String) ≠
      "# a \x0c : intb\nx = 1\n" := by
  refine ⟨?_, ?_, ?_⟩
  · decide
  · decide
  · decide

end PyGuard
